import Mathlib

/-!
Verification of the nursery pricing calculator (`src/nursery_pricing_basic.py`).

The arithmetic pipeline of the page (lines 66-103 of the source) is embedded
as pure functions over `ℚ`; the Python float literals `0.10` and `1.10` are
modelled as the rationals `1/10` and `11/10`.  Python raises
`ZeroDivisionError` when a float division by zero is attempted, so the one
division whose denominator can vanish for admissible slider values
(`base_selling_price`, line 71, at `profit_margin = 100`) is wrapped in an
`Option`-returning entry point `pipeline`.  The competitor comparison section
(lines 180-204) is embedded as a function over a list of entries.
-/

namespace NurseryPricing

/-- The widget-bound input variables of the page: the cost inputs
(lines 33-53), the pricing sliders (lines 57-61) and the GST checkbox
(line 62).  The sliders produce integers but are modelled as rationals;
`Valid` below records the widget ranges. -/
structure Inputs where
  plant_cost : ℚ
  pot_cost : ℚ
  soil_cost : ℚ
  fertilizer_cost : ℚ
  packaging_cost : ℚ
  other_materials : ℚ
  care_hours : ℚ
  hourly_rate : ℚ
  profit_margin : ℚ
  sales_discount : ℚ
  minimum_sales_profit : ℚ
  include_gst : Bool
deriving DecidableEq

/-- The ranges enforced by the input widgets: every cost field has
`min_value=0.0`; the sliders are `profit_margin ∈ [20,100]`,
`sales_discount ∈ [0,50]`, `minimum_sales_profit ∈ [0,20]`. -/
def Valid (i : Inputs) : Prop :=
  0 ≤ i.plant_cost ∧ 0 ≤ i.pot_cost ∧ 0 ≤ i.soil_cost ∧
  0 ≤ i.fertilizer_cost ∧ 0 ≤ i.packaging_cost ∧ 0 ≤ i.other_materials ∧
  0 ≤ i.care_hours ∧ 0 ≤ i.hourly_rate ∧
  20 ≤ i.profit_margin ∧ i.profit_margin ≤ 100 ∧
  0 ≤ i.sales_discount ∧ i.sales_discount ≤ 50 ∧
  0 ≤ i.minimum_sales_profit ∧ i.minimum_sales_profit ≤ 20

instance (i : Inputs) : Decidable (Valid i) := by
  unfold Valid; infer_instance

/-- The default widget values (`value=` arguments of lines 33-62). -/
def defaultInputs : Inputs :=
  { plant_cost := 5, pot_cost := 2, soil_cost := 1, fertilizer_cost := 1/2,
    packaging_cost := 3/2, other_materials := 0, care_hours := 1,
    hourly_rate := 20, profit_margin := 30, sales_discount := 0,
    minimum_sales_profit := 10, include_gst := true }

/-- Line 66: `total_material_cost = pot_cost + soil_cost + fertilizer_cost
+ packaging_cost + other_materials`. -/
def total_material_cost (i : Inputs) : ℚ :=
  i.pot_cost + i.soil_cost + i.fertilizer_cost + i.packaging_cost + i.other_materials

/-- Line 67: `time_cost = care_hours * hourly_rate`. -/
def time_cost (i : Inputs) : ℚ := i.care_hours * i.hourly_rate

/-- Line 68: `total_cost = plant_cost + total_material_cost + time_cost`. -/
def total_cost (i : Inputs) : ℚ := i.plant_cost + total_material_cost i + time_cost i

/-- Line 71: `base_selling_price = total_cost / (1 - profit_margin/100)`.
This is the value the division produces when the denominator is non-zero;
`pipeline` below accounts for the `ZeroDivisionError` at
`profit_margin = 100`. -/
def base_selling_price (i : Inputs) : ℚ :=
  total_cost i / (1 - i.profit_margin / 100)

/-- Lines 74-78: `gst_amount = base_selling_price * 0.10` when
`include_gst`, else `0.0`. -/
def gst_amount (i : Inputs) : ℚ :=
  if i.include_gst then base_selling_price i * (1/10) else 0

/-- Lines 74-79: `list_price = base_selling_price + gst_amount` when
`include_gst`, else `base_selling_price`. -/
def list_price (i : Inputs) : ℚ :=
  if i.include_gst then base_selling_price i + gst_amount i else base_selling_price i

/-- Line 83: `discounted_price = list_price * (1 - sales_discount/100)`
(only used on the `sales_discount > 0` branch). -/
def discounted_price (i : Inputs) : ℚ :=
  list_price i * (1 - i.sales_discount / 100)

/-- Line 86: `min_price_before_gst = total_cost / (1 - minimum_sales_profit/100)
if minimum_sales_profit > 0 else total_cost`. -/
def min_price_before_gst (i : Inputs) : ℚ :=
  if 0 < i.minimum_sales_profit then total_cost i / (1 - i.minimum_sales_profit / 100)
  else total_cost i

/-- Line 87: `min_allowable_price = min_price_before_gst * 1.10 if include_gst
else min_price_before_gst`. -/
def min_allowable_price (i : Inputs) : ℚ :=
  if i.include_gst then min_price_before_gst i * (11/10) else min_price_before_gst i

/-- Lines 82-92: `final_selling_price = max(discounted_price,
min_allowable_price)` when `sales_discount > 0`, else `list_price`. -/
def final_selling_price (i : Inputs) : ℚ :=
  if 0 < i.sales_discount then max (discounted_price i) (min_allowable_price i)
  else list_price i

/-- Lines 95-99: `actual_price_before_gst = final_selling_price / 1.10`
when `include_gst`, else `final_selling_price`. -/
def actual_price_before_gst (i : Inputs) : ℚ :=
  if i.include_gst then final_selling_price i / (11/10) else final_selling_price i

/-- Lines 95-100: `actual_gst = final_selling_price - actual_price_before_gst`
when `include_gst`, else `0.0`. -/
def actual_gst (i : Inputs) : ℚ :=
  if i.include_gst then final_selling_price i - actual_price_before_gst i else 0

/-- Line 102: `actual_profit = actual_price_before_gst - total_cost`. -/
def actual_profit (i : Inputs) : ℚ :=
  actual_price_before_gst i - total_cost i

/-- Line 103: `actual_margin = (actual_profit / actual_price_before_gst) * 100
if actual_price_before_gst > 0 else 0`. -/
def actual_margin (i : Inputs) : ℚ :=
  if 0 < actual_price_before_gst i then actual_profit i / actual_price_before_gst i * 100
  else 0

/-- The whole pipeline as an `Option`: Python raises `ZeroDivisionError` the
moment line 71 divides by `1 - profit_margin/100 = 0.0`, so no result value
is produced for `profit_margin = 100`; otherwise the run yields the final
selling price and the achieved margin. -/
def pipeline (i : Inputs) : Option (ℚ × ℚ) :=
  if 1 - i.profit_margin / 100 = 0 then none
  else some (final_selling_price i, actual_margin i)

/-- A competitor row: lines 182-186 append `{"Name": ..., "Price": ...}`
dictionaries; line 190 adds `{"Name": "Your Price", "Price": final_selling_price}`. -/
structure CompetitorEntry where
  name : String
  price : ℚ
deriving DecidableEq

/-- Lines 180-186: the `competitors` list keeps exactly the entries whose
price is `> 0` (each slot is appended under `if compN_price > 0`). -/
def competitorsOf (entries : List CompetitorEntry) : List CompetitorEntry :=
  entries.filter fun e => decide (0 < e.price)

/-- Ascending insertion by price, keeping earlier rows first among equal
prices; models line 194 `df.sort_values("Price")` (ties: see C9). -/
def insertByPrice (e : CompetitorEntry) : List CompetitorEntry → List CompetitorEntry
  | [] => [e]
  | x :: xs => if e.price < x.price then e :: x :: xs else x :: insertByPrice e xs

/-- Ascending sort by price of the comparison rows (line 194). -/
def sortByPrice : List CompetitorEntry → List CompetitorEntry
  | [] => []
  | x :: xs => insertByPrice x (sortByPrice xs)

/-- Result of the comparison section: the average competitor price
(line 198), whether our price is at most that average (line 200), and the
rows sorted ascending by price (lines 190-194). -/
structure ComparisonResult where
  avg : ℚ
  competitive : Bool
  sorted : List CompetitorEntry
deriving DecidableEq

/-- Lines 188-204: the whole section runs only `if competitors:` (non-empty
after the `> 0` filter); otherwise nothing is computed — in particular
`avg_competitor_price` (a division by `len(competitors)`) is never
evaluated on the empty list. -/
def compare (entries : List CompetitorEntry) (ourPrice : ℚ) : Option ComparisonResult :=
  let competitors := competitorsOf entries
  if competitors.isEmpty then none
  else
    let avg := (competitors.map (fun e => e.price)).sum / (competitors.length : ℚ)
    some { avg := avg,
           competitive := decide (ourPrice ≤ avg),
           sorted := sortByPrice (competitors ++ [{ name := "Your Price", price := ourPrice }]) }

/-!  ## Theorems -/

/-- C1: for every input on the discount path (`salesDiscountPct > 0`), the
final selling price is at least the minimum allowable price — the floor
`min_price_before_gst * 1.10` (when GST) of `totalCost / (1 - minProfit/100)`
(or `totalCost` when the minimum profit is 0); no discount can push the
price below it. -/
theorem final_price_ge_discount_floor (i : Inputs) (hd : 0 < i.sales_discount) :
    min_allowable_price i ≤ final_selling_price i := by
  unfold final_selling_price
  rw [if_pos hd]
  exact le_max_right _ _

/-- Witness for C1: at the default costs with a 50% discount the floor
(GST-inclusive minimum-margin price `(30 / (9/10)) * 11/10 = 110/3`) is
reached. -/
theorem final_price_ge_discount_floor_witness :
    (0 : ℚ) < 50 ∧
      min_allowable_price { defaultInputs with sales_discount := 50 } ≤
        final_selling_price { defaultInputs with sales_discount := 50 } :=
  ⟨by norm_num,
    final_price_ge_discount_floor { defaultInputs with sales_discount := 50 } (by norm_num)⟩

/-- C4: with the default inputs, `totalCost = 30`,
`basePrice = 30/0.7 = 300/7 = 42.857142...`, `taxAmount = 30/7 = 4.2857...`,
`finalPrice = 330/7 ≈ 47.142857`, and `actualMarginPct = 30` exactly. -/
theorem default_inputs_results :
    total_cost defaultInputs = 30 ∧
    base_selling_price defaultInputs = 300 / 7 ∧
    gst_amount defaultInputs = 30 / 7 ∧
    final_selling_price defaultInputs = 330 / 7 ∧
    actual_margin defaultInputs = 30 := by
  norm_num [actual_margin, actual_profit, actual_price_before_gst, final_selling_price,
    list_price, gst_amount, base_selling_price, total_cost, total_material_cost, time_cost,
    defaultInputs]

/-- C2: the slider (line 57, `max_value=100`) admits `profitMarginPct = 100`
as a valid input, and the pipeline then produces no result: line 71 attempts
`total_cost / 0.0`, which in Python raises an untyped `ZeroDivisionError` —
the value is neither rejected nor clamped before the division, and no typed
`MarginOutOfRange` error exists in the code. -/
theorem margin_100_reaches_division :
    Valid { defaultInputs with profit_margin := 100 } ∧
      pipeline { defaultInputs with profit_margin := 100 } = none := by
  constructor
  · norm_num [Valid, defaultInputs]
  · norm_num [pipeline, defaultInputs]

/-- All cost fields are non-negative, so the total cost is non-negative. -/
lemma total_cost_nonneg (i : Inputs) (hv : Valid i) : 0 ≤ total_cost i := by
  obtain ⟨h1, h2, h3, h4, h5, h6, h7, h8, -⟩ := hv
  have hmul : 0 ≤ i.care_hours * i.hourly_rate := mul_nonneg h7 h8
  unfold total_cost total_material_cost time_cost
  linarith

/-- For margins up to 99 the divisor of line 71 lies in `(0, 1]`, so the
base selling price is at least the total cost. -/
lemma total_cost_le_base (i : Inputs) (hv : Valid i) (h99 : i.profit_margin ≤ 99) :
    total_cost i ≤ base_selling_price i := by
  have hC := total_cost_nonneg i hv
  obtain ⟨-, -, -, -, -, -, -, -, hm20, -⟩ := hv
  unfold base_selling_price
  have hdpos : 0 < 1 - i.profit_margin / 100 := by linarith
  have hdle : 1 - i.profit_margin / 100 ≤ 1 := by linarith
  rw [le_div_iff₀ hdpos]
  exact mul_le_of_le_one_right hC hdle

/-- The minimum-margin pre-GST price of line 86 is at least the total cost. -/
lemma total_cost_le_min_before (i : Inputs) (hv : Valid i) :
    total_cost i ≤ min_price_before_gst i := by
  have hC := total_cost_nonneg i hv
  obtain ⟨-, -, -, -, -, -, -, -, -, -, -, -, hp0, hp20⟩ := hv
  unfold min_price_before_gst
  split_ifs with h
  · have hdpos : 0 < 1 - i.minimum_sales_profit / 100 := by linarith
    have hdle : 1 - i.minimum_sales_profit / 100 ≤ 1 := by linarith
    rw [le_div_iff₀ hdpos]
    exact mul_le_of_le_one_right hC hdle
  · exact le_rfl

/-- On the no-discount path the GST addition and its back-out cancel
exactly: the achieved pre-GST price is the base selling price. -/
lemma price_eq_base_of_no_discount (i : Inputs) (hd : ¬ 0 < i.sales_discount) :
    actual_price_before_gst i = base_selling_price i := by
  unfold actual_price_before_gst final_selling_price list_price gst_amount
  by_cases hg : i.include_gst
  · simp only [hg, if_true, if_neg hd]
    field_simp
    ring
  · simp [hg, hd]

/-- On the discount path the achieved pre-GST price is at least the
minimum-margin pre-GST price, because the final price is floored at
`min_allowable_price`. -/
lemma min_before_le_price_of_discount (i : Inputs) (hd : 0 < i.sales_discount) :
    min_price_before_gst i ≤ actual_price_before_gst i := by
  unfold actual_price_before_gst final_selling_price min_allowable_price
  by_cases hg : i.include_gst
  · simp only [hg, if_true, if_pos hd]
    rw [le_div_iff₀ (by norm_num : (0:ℚ) < 11/10)]
    exact le_max_right _ _
  · simp only [hg, if_false, if_pos hd, Bool.false_eq_true]
    exact le_max_right _ _

/-- Across every branch of the pipeline the achieved pre-GST price is at
least the total cost, hence the achieved profit is never negative. -/
lemma total_cost_le_actual_price (i : Inputs) (hv : Valid i) (h99 : i.profit_margin ≤ 99) :
    total_cost i ≤ actual_price_before_gst i := by
  by_cases hd : 0 < i.sales_discount
  · exact le_trans (total_cost_le_min_before i hv) (min_before_le_price_of_discount i hd)
  · rw [price_eq_base_of_no_discount i hd]
    exact total_cost_le_base i hv h99

/-- The achieved profit of line 102 is non-negative on every valid input. -/
lemma actual_profit_nonneg (i : Inputs) (hv : Valid i) (h99 : i.profit_margin ≤ 99) :
    0 ≤ actual_profit i :=
  sub_nonneg.2 (total_cost_le_actual_price i hv h99)

/-- C3: on every valid input (margin at most 99, where the pipeline
produces a value), the reported margin is
`100 * actualProfit / priceExTax` exactly when both `actualProfit > 0` and
`priceExTax > 0`, and `0` otherwise; in particular it is `0` whenever
`actualProfit ≤ 0` and is never negative. -/
theorem actual_margin_cases (i : Inputs) (hv : Valid i) (h99 : i.profit_margin ≤ 99) :
    actual_margin i =
      (if 0 < actual_profit i ∧ 0 < actual_price_before_gst i
        then actual_profit i / actual_price_before_gst i * 100 else 0) ∧
    (actual_profit i ≤ 0 → actual_margin i = 0) ∧
    0 ≤ actual_margin i := by
  have hp := actual_profit_nonneg i hv h99
  unfold actual_margin
  by_cases hpr : 0 < actual_price_before_gst i
  · rw [if_pos hpr]
    by_cases hpp : 0 < actual_profit i
    · refine ⟨by rw [if_pos ⟨hpp, hpr⟩], fun h => absurd h (not_le.2 hpp), ?_⟩
      have := div_nonneg hp hpr.le
      linarith
    · have hz : actual_profit i = 0 := le_antisymm (not_lt.1 hpp) hp
      rw [hz]
      simp
  · rw [if_neg hpr]
    refine ⟨?_, fun _ => rfl, le_rfl⟩
    rw [if_neg (fun h => hpr h.2)]

/-- Witness for C3 at the default inputs. -/
theorem actual_margin_cases_witness :
    Valid defaultInputs ∧ defaultInputs.profit_margin ≤ 99 ∧
      (actual_margin defaultInputs =
        (if 0 < actual_profit defaultInputs ∧ 0 < actual_price_before_gst defaultInputs
          then actual_profit defaultInputs / actual_price_before_gst defaultInputs * 100 else 0) ∧
      (actual_profit defaultInputs ≤ 0 → actual_margin defaultInputs = 0) ∧
      0 ≤ actual_margin defaultInputs) :=
  ⟨by norm_num [Valid, defaultInputs], by norm_num [defaultInputs],
    actual_margin_cases defaultInputs (by norm_num [Valid, defaultInputs])
      (by norm_num [defaultInputs])⟩

/-- C10: with no discount, positive total cost and margin in `[20,99]`, the
achieved margin equals the requested margin exactly, with or without GST:
the 10% addition and the `/1.10` back-out cancel and the pre-tax price is
the base selling price. -/
theorem no_discount_margin_exact (i : Inputs) (hv : Valid i)
    (hd : i.sales_discount = 0) (hC : 0 < total_cost i) (h99 : i.profit_margin ≤ 99) :
    actual_margin i = i.profit_margin := by
  have hd' : ¬ 0 < i.sales_discount := by rw [hd]; exact lt_irrefl 0
  have hpe := price_eq_base_of_no_discount i hd'
  obtain ⟨-, -, -, -, -, -, -, -, hm20, -⟩ := hv
  have hden : 0 < 1 - i.profit_margin / 100 := by linarith
  have hbpos : 0 < base_selling_price i := div_pos hC hden
  have hkey : base_selling_price i * (1 - i.profit_margin / 100) = total_cost i :=
    div_mul_cancel₀ _ hden.ne'
  unfold actual_margin actual_profit
  rw [hpe, if_pos hbpos]
  field_simp
  linear_combination (100 : ℚ) * hkey

/-- Witness for C10 at the default inputs: the 30% requested margin is
achieved exactly. -/
theorem no_discount_margin_exact_witness :
    Valid defaultInputs ∧ defaultInputs.sales_discount = 0 ∧
      0 < total_cost defaultInputs ∧ defaultInputs.profit_margin ≤ 99 ∧
      actual_margin defaultInputs = defaultInputs.profit_margin :=
  ⟨by norm_num [Valid, defaultInputs], rfl,
    by norm_num [total_cost, total_material_cost, time_cost, defaultInputs],
    by norm_num [defaultInputs],
    no_discount_margin_exact defaultInputs (by norm_num [Valid, defaultInputs]) rfl
      (by norm_num [total_cost, total_material_cost, time_cost, defaultInputs])
      (by norm_num [defaultInputs])⟩

/-- All cost inputs set to `0` — admissible, since every cost widget allows
exactly `min_value=0.0`; sliders at their defaults. -/
def zeroCostInputs : Inputs :=
  { plant_cost := 0, pot_cost := 0, soil_cost := 0, fertilizer_cost := 0,
    packaging_cost := 0, other_materials := 0, care_hours := 0,
    hourly_rate := 0, profit_margin := 30, sales_discount := 0,
    minimum_sales_profit := 10, include_gst := true }

/-- Counterexample to C5 as stated: with every cost equal to `0` (a valid
input), the base selling price is `0` at margin `20` and at margin `30`
alike — not strictly increasing over `[20,99]`. -/
theorem base_price_not_strict_mono :
    Valid { zeroCostInputs with profit_margin := 20 } ∧
    Valid { zeroCostInputs with profit_margin := 30 } ∧
    (20 : ℚ) ≤ 20 ∧ (20 : ℚ) < 30 ∧ (30 : ℚ) ≤ 99 ∧
    base_selling_price { zeroCostInputs with profit_margin := 20 } =
      base_selling_price { zeroCostInputs with profit_margin := 30 } ∧
    ¬ base_selling_price { zeroCostInputs with profit_margin := 20 } <
        base_selling_price { zeroCostInputs with profit_margin := 30 } := by
  refine ⟨by norm_num [Valid, zeroCostInputs], by norm_num [Valid, zeroCostInputs],
    by norm_num, by norm_num, by norm_num, ?_, ?_⟩ <;>
    norm_num [base_selling_price, total_cost, total_material_cost, time_cost, zeroCostInputs]

/-- C5 (amended): for a fixed set of cost inputs with positive total cost,
the base selling price is strictly increasing in the profit margin over
`[20, 99]`. -/
theorem base_price_strict_mono (i : Inputs) (m1 m2 : ℚ) (hC : 0 < total_cost i)
    (h1 : 20 ≤ m1) (h12 : m1 < m2) (h2 : m2 ≤ 99) :
    base_selling_price { i with profit_margin := m1 } <
      base_selling_price { i with profit_margin := m2 } := by
  have e1 : total_cost { i with profit_margin := m1 } = total_cost i := rfl
  have e2 : total_cost { i with profit_margin := m2 } = total_cost i := rfl
  unfold base_selling_price
  rw [e1, e2]
  exact div_lt_div_of_pos_left hC (by norm_num; linarith) (by norm_num; linarith)

/-- Witness for C5 (amended): at the default costs the base price at margin
30 exceeds the base price at margin 20. -/
theorem base_price_strict_mono_witness :
    0 < total_cost defaultInputs ∧ (20 : ℚ) ≤ 20 ∧ (20 : ℚ) < 30 ∧ (30 : ℚ) ≤ 99 ∧
      base_selling_price { defaultInputs with profit_margin := 20 } <
        base_selling_price { defaultInputs with profit_margin := 30 } :=
  ⟨by norm_num [total_cost, total_material_cost, time_cost, defaultInputs],
    by norm_num, by norm_num, by norm_num,
    base_price_strict_mono defaultInputs 20 30
      (by norm_num [total_cost, total_material_cost, time_cost, defaultInputs])
      (by norm_num) (by norm_num) (by norm_num)⟩

/-- The discount floor was actually applied: the discount branch ran and the
nominal discounted price fell below the minimum allowable price. -/
def discount_floor_applied (i : Inputs) : Prop :=
  0 < i.sales_discount ∧ discounted_price i < min_allowable_price i

/-- C6: when GST is included and the discount floor was not applied, the
backed-out pre-tax price `priceExTax = finalPrice / 1.10` satisfies
`priceExTax * 1.10 = finalPrice` (exactly, in the rational model). -/
theorem tax_round_trip (i : Inputs) (hg : i.include_gst = true)
    (hnf : ¬ discount_floor_applied i) :
    actual_price_before_gst i * (11/10) = final_selling_price i := by
  unfold actual_price_before_gst
  rw [hg, if_pos rfl]
  exact div_mul_cancel₀ _ (by norm_num)

/-- Witness for C6 at the default inputs (GST on, no discount). -/
theorem tax_round_trip_witness :
    defaultInputs.include_gst = true ∧ ¬ discount_floor_applied defaultInputs ∧
      actual_price_before_gst defaultInputs * (11/10) = final_selling_price defaultInputs :=
  ⟨rfl, by norm_num [discount_floor_applied, defaultInputs],
    tax_round_trip defaultInputs rfl
      (by norm_num [discount_floor_applied, defaultInputs])⟩

/-- C7: the comparator keeps only entries with positive price, and when
every entered price is `0` the filtered set is empty and no comparison
result is produced at all (`none`, not an error): the average over the
empty list is never evaluated. -/
theorem comparator_empty_and_filter (entries : List CompetitorEntry) (ourPrice : ℚ) :
    (∀ e ∈ competitorsOf entries, 0 < e.price) ∧
    ((∀ e ∈ entries, e.price = 0) → compare entries ourPrice = none) := by
  constructor
  · intro e he
    exact of_decide_eq_true (List.mem_filter.1 he).2
  · intro hall
    have hnil : competitorsOf entries = [] := by
      apply List.filter_eq_nil_iff.2
      intro e he
      simp [hall e he]
    unfold compare
    rw [hnil]
    rfl

/-- Witness for C7: with the three competitor slots left at price `0`, no
comparison is produced. -/
theorem comparator_empty_witness :
    compare [{ name := "Local Garden Center", price := 0 },
             { name := "Big Box Store", price := 0 },
             { name := "Online Retailer", price := 0 }] (330/7) = none :=
  (comparator_empty_and_filter _ (330/7)).2 (by intro e he; fin_cases he <;> rfl)

/-- C8: concretely, for competitors priced 10 and 15 and our price 12, the
comparator yields average `12.5`, flags the price as competitive, and sorts
the rows ascending as `[10, 12 (ours), 15]`; and in general every produced
result carries the mean of the filtered competitor prices as its average
and is flagged competitive exactly when our price is at most that average. -/
theorem comparator_example_and_mean :
    compare [{ name := "Local Garden Center", price := 10 },
             { name := "Big Box Store", price := 15 }] 12 =
      some { avg := 25/2, competitive := true,
             sorted := [{ name := "Local Garden Center", price := 10 },
                        { name := "Your Price", price := 12 },
                        { name := "Big Box Store", price := 15 }] } ∧
    ∀ entries ourPrice r, compare entries ourPrice = some r →
      r.avg = ((competitorsOf entries).map (fun e => e.price)).sum /
          ((competitorsOf entries).length : ℚ) ∧
      (r.competitive = true ↔ ourPrice ≤ r.avg) := by
  constructor
  · norm_num [compare, competitorsOf, sortByPrice, insertByPrice, List.filter]
  · intro es p r h
    unfold compare at h
    by_cases he : (competitorsOf es).isEmpty
    · rw [if_pos he] at h
      exact absurd h (by simp)
    · rw [if_neg he] at h
      obtain rfl := (Option.some_injective _ h).symm
      exact ⟨rfl, by simp⟩

/-- Witness for C8's general clause, instantiated with the concrete result
established by the first clause. -/
theorem comparator_mean_witness :
    (25/2 : ℚ) =
        ((competitorsOf [{ name := "Local Garden Center", price := 10 },
                         { name := "Big Box Store", price := 15 }]).map
            (fun e => e.price)).sum /
          ((competitorsOf [{ name := "Local Garden Center", price := 10 },
                           { name := "Big Box Store", price := 15 }]).length : ℚ) ∧
      (true = true ↔ (12 : ℚ) ≤ 25/2) :=
  comparator_example_and_mean.2 _ 12
    { avg := 25/2, competitive := true,
      sorted := [{ name := "Local Garden Center", price := 10 },
                 { name := "Your Price", price := 12 },
                 { name := "Big Box Store", price := 15 }] }
    comparator_example_and_mean.1

end NurseryPricing
